import Mathlib

/-!
Shallow embedding of the petty-cash ledger canister
(`src/icp_rust_boilerplate_backend/src/lib.rs`).

Monetary amounts (Rust `f64`) are modelled as exact rationals `ℚ`; the
claims under scrutiny only use addition, negation and order comparisons,
which the embedding performs in the same order as the source.  The three
`thread_local!` stable cells (`ID_COUNTER`, `PETTY_CASH_STORAGE`,
`BALANCE`) become the fields of `CanisterState`; the `StableBTreeMap` is
an association list ordered by key, which is how the stable map iterates.
The IC `time()` call becomes an explicit `now : Nat` argument.  Each
`#[ic_cdk::update]` endpoint becomes a pure function from the pre-state
to the Rust return value paired with the post-state.
-/

namespace PettyCash

/-- `enum TransactionType { Debit, Credit }`. -/
inductive TransactionType where
  | Debit
  | Credit
deriving DecidableEq, Repr

/-- `impl Default for TransactionType` returns `Debit`. -/
instance : Inhabited TransactionType :=
  ⟨TransactionType.Debit⟩

/-- `struct PettyCashEntry` (amounts as exact rationals). -/
structure PettyCashEntry where
  id : Nat
  date : Nat
  description : String
  amount : ℚ
  entry_type : TransactionType
  category : String
  receipt_url : Option String
  approved_by : Option String
  created_at : Nat
  updated_at : Option Nat
deriving DecidableEq, Repr

/-- `struct EntryPayload`. -/
structure EntryPayload where
  description : String
  amount : ℚ
  entry_type : TransactionType
  category : String
  receipt_url : Option String
  approved_by : Option String
deriving DecidableEq, Repr

/-- `enum Error { NotFound, InvalidAmount, InsufficientFunds }`, each with a message. -/
inductive Error where
  | NotFound (msg : String)
  | InvalidAmount (msg : String)
  | InsufficientFunds (msg : String)
deriving DecidableEq, Repr

/-- The `StableBTreeMap<u64, PettyCashEntry, _>` as a key-ordered association list. -/
abbrev EntryStore := List (Nat × PettyCashEntry)

/-- `storage.get(&id)`: first binding of the key, if any. -/
def storeGet : EntryStore → Nat → Option PettyCashEntry
  | [], _ => none
  | (k', e') :: rest, k => if k = k' then some e' else storeGet rest k

/-- `storage.insert(id, entry)`: replace the binding of the key, or insert it
at its ordered position. -/
def storeInsert : EntryStore → Nat → PettyCashEntry → EntryStore
  | [], k, e => [(k, e)]
  | (k', e') :: rest, k, e =>
    if k < k' then (k, e) :: (k', e') :: rest
    else if k = k' then (k, e) :: rest
    else (k', e') :: storeInsert rest k e

/-- `storage.remove(&id)`: the removed binding (if any) and the remaining map. -/
def storeRemove : EntryStore → Nat → Option PettyCashEntry × EntryStore
  | [], _ => (none, [])
  | (k', e') :: rest, k =>
    if k = k' then (some e', rest)
    else
      let r := storeRemove rest k
      (r.1, (k', e') :: r.2)

/-- The three stable cells: `ID_COUNTER`, `PETTY_CASH_STORAGE`, `BALANCE`. -/
structure CanisterState where
  id_counter : Nat
  petty_cash_storage : EntryStore
  balance : ℚ
deriving DecidableEq, Repr

/-- Initial state: counter cell initialized to `0`, empty map, balance cell `0.0`. -/
def initState : CanisterState :=
  { id_counter := 0, petty_cash_storage := [], balance := 0 }

/-- The signed effect an entry has on the balance: `+amount` for Credit,
`-amount` for Debit. -/
def signedAmount (e : PettyCashEntry) : ℚ :=
  match e.entry_type with
  | TransactionType.Credit => e.amount
  | TransactionType.Debit => -e.amount

/-- `old_balance_change` in `update_entry` / `balance_change` in `delete_entry`:
the delta that reverses a stored entry's effect. -/
def reverseDelta (e : PettyCashEntry) : ℚ :=
  match e.entry_type with
  | TransactionType.Credit => -e.amount
  | TransactionType.Debit => e.amount

/-- `balance_change` in `add_entry` / `new_balance_change` in `update_entry`:
the delta a payload applies to the balance. -/
def payloadDelta (p : EntryPayload) : ℚ :=
  match p.entry_type with
  | TransactionType.Credit => p.amount
  | TransactionType.Debit => -p.amount

/-- Sum of the signed amounts of all entries currently in the store. -/
def storeSum (l : EntryStore) : ℚ :=
  (l.map (fun p => signedAmount p.2)).sum

/-- `fn do_insert(entry: &PettyCashEntry)`: insert into the storage under `entry.id`. -/
def do_insert (entry : PettyCashEntry) (st : EntryStore) : EntryStore :=
  storeInsert st entry.id entry

/-- `fn get_entry(id: u64) -> Result<PettyCashEntry, Error>` (query). -/
def get_entry (id : Nat) (s : CanisterState) : Except Error PettyCashEntry :=
  match storeGet s.petty_cash_storage id with
  | some entry => Except.ok entry
  | none => Except.error (Error.NotFound ("Entry with id=" ++ toString id ++ " not found"))

/-- `fn get_current_balance() -> f64` (query). -/
def get_current_balance (s : CanisterState) : ℚ :=
  s.balance

/-- `fn get_entries_by_date_range(start_date, end_date) -> Vec<PettyCashEntry>` (query):
filter the stored entries by `entry.date >= start_date && entry.date <= end_date`. -/
def get_entries_by_date_range (start_date end_date : Nat) (s : CanisterState) :
    List PettyCashEntry :=
  (s.petty_cash_storage.filter
      (fun p => decide (start_date ≤ p.2.date) && decide (p.2.date ≤ end_date))).map
    (fun p => p.2)

/-- `fn add_entry(payload: EntryPayload) -> Result<PettyCashEntry, Error>`:
validate the amount, check funds for a debit, allocate the id (the counter
cell's `set` returns the previous value), stamp both timestamps with the
current time, commit the balance, insert the entry. -/
def add_entry (now : Nat) (payload : EntryPayload) (s : CanisterState) :
    Except Error PettyCashEntry × CanisterState :=
  if payload.amount ≤ 0 then
    (Except.error (Error.InvalidAmount "Amount must be greater than 0"), s)
  else if payload.entry_type = TransactionType.Debit ∧ s.balance < payload.amount then
    (Except.error (Error.InsufficientFunds
        ("Insufficient funds. Current balance: " ++ toString s.balance ++
          ", Required: " ++ toString payload.amount)), s)
  else
    let id := s.id_counter
    let entry : PettyCashEntry :=
      { id := id
        date := now
        description := payload.description
        amount := payload.amount
        entry_type := payload.entry_type
        category := payload.category
        receipt_url := payload.receipt_url
        approved_by := payload.approved_by
        created_at := now
        updated_at := none }
    let balance_change := payloadDelta payload
    (Except.ok entry,
      { id_counter := s.id_counter + 1
        petty_cash_storage := do_insert entry s.petty_cash_storage
        balance := s.balance + balance_change })

/-- `fn update_entry(id: u64, payload: EntryPayload) -> Result<PettyCashEntry, Error>`:
look the entry up, reverse its old effect, apply the payload's new effect,
reject if the candidate balance is negative (leaving everything unchanged),
otherwise commit the balance, overwrite the payload fields, refresh
`updated_at`, and re-insert. -/
def update_entry (now : Nat) (id : Nat) (payload : EntryPayload) (s : CanisterState) :
    Except Error PettyCashEntry × CanisterState :=
  match storeGet s.petty_cash_storage id with
  | some entry =>
    let old_balance_change := reverseDelta entry
    let new_balance_change := payloadDelta payload
    let new_balance := s.balance + old_balance_change + new_balance_change
    if new_balance < 0 then
      (Except.error (Error.InsufficientFunds "Update would result in negative balance"), s)
    else
      let updated : PettyCashEntry :=
        { entry with
            description := payload.description
            amount := payload.amount
            entry_type := payload.entry_type
            category := payload.category
            receipt_url := payload.receipt_url
            approved_by := payload.approved_by
            updated_at := some now }
      (Except.ok updated,
        { s with
            balance := new_balance
            petty_cash_storage := do_insert updated s.petty_cash_storage })
  | none =>
    (Except.error (Error.NotFound ("Entry with id=" ++ toString id ++ " not found")), s)

/-- `fn delete_entry(id: u64) -> Result<PettyCashEntry, Error>`: remove the
entry, reverse its effect on the balance unconditionally, return the removed
entry. -/
def delete_entry (id : Nat) (s : CanisterState) :
    Except Error PettyCashEntry × CanisterState :=
  let r := storeRemove s.petty_cash_storage id
  match r.1 with
  | some entry =>
    let balance_change := reverseDelta entry
    (Except.ok entry,
      { s with
          petty_cash_storage := r.2
          balance := s.balance + balance_change })
  | none =>
    (Except.error (Error.NotFound ("Entry with id=" ++ toString id ++ " not found")),
      { s with petty_cash_storage := r.2 })

/-- Run a list of `add_entry` calls (each with its own `time()` value),
returning the final state. -/
def runAdds : List (Nat × EntryPayload) → CanisterState → CanisterState
  | [], s => s
  | op :: rest, s => runAdds rest (add_entry op.1 op.2 s).2

/-- Run a list of `add_entry` calls, returning every call's result. -/
def runAddsTrace : List (Nat × EntryPayload) → CanisterState → List (Except Error PettyCashEntry)
  | [], _ => []
  | op :: rest, s => (add_entry op.1 op.2 s).1 :: runAddsTrace rest (add_entry op.1 op.2 s).2

/-- The id of a successful `add_entry` result. -/
def addResultId (r : Except Error PettyCashEntry) : Option Nat :=
  match r with
  | Except.ok e => some e.id
  | Except.error _ => none

/-- Ids of the successful calls in a result trace. -/
def okIds (rs : List (Except Error PettyCashEntry)) : List Nat :=
  rs.filterMap addResultId

/-- Whether a result is the `InsufficientFunds` error. -/
def errIsInsufficientFunds : Except Error PettyCashEntry → Bool
  | Except.error (Error.InsufficientFunds _) => true
  | _ => false

/-- Whether a result is the `InvalidAmount` error. -/
def errIsInvalidAmount : Except Error PettyCashEntry → Bool
  | Except.error (Error.InvalidAmount _) => true
  | _ => false

/-- Whether a result is the `NotFound` error. -/
def errIsNotFound : Except Error PettyCashEntry → Bool
  | Except.error (Error.NotFound _) => true
  | _ => false

/-- Whether a call returned `Ok`. -/
def resIsOk : Except Error PettyCashEntry → Bool
  | Except.ok _ => true
  | Except.error _ => false

/-! ### The balance/store consistency invariant -/

/-- The balance cell holds the sum of the stored signed amounts, and every
stored key was allocated below the current counter value. -/
def balanceInv (s : CanisterState) : Prop :=
  s.balance = storeSum s.petty_cash_storage ∧
  ∀ q ∈ s.petty_cash_storage, q.1 < s.id_counter

/-! ### Concrete fixtures used for witnesses and the §8 scenario -/

/-- A Credit payload of the given amount. -/
def creditPayload (a : ℚ) : EntryPayload :=
  { description := "kas top-up"
    amount := a
    entry_type := TransactionType.Credit
    category := "kas"
    receipt_url := none
    approved_by := none }

/-- A Debit payload of the given amount. -/
def debitPayload (a : ℚ) : EntryPayload :=
  { description := "office supplies"
    amount := a
    entry_type := TransactionType.Debit
    category := "ops"
    receipt_url := none
    approved_by := none }

/-- The entry produced by adding `creditPayload 100` at time 1 from the
initial state. -/
def sampleCreditEntry : PettyCashEntry :=
  { id := 0
    date := 1
    description := "kas top-up"
    amount := 100
    entry_type := TransactionType.Credit
    category := "kas"
    receipt_url := none
    approved_by := none
    created_at := 1
    updated_at := none }

/-- A state holding `sampleCreditEntry` with balance 100. -/
def sampleState : CanisterState :=
  { id_counter := 1, petty_cash_storage := [(0, sampleCreditEntry)], balance := 100 }

/-- `sampleState` with a larger balance cell (the endpoints never assume the
balance is consistent with the store, so this is a legal pre-state). -/
def sampleRichState : CanisterState :=
  { id_counter := 1, petty_cash_storage := [(0, sampleCreditEntry)], balance := 300 }

/-- §8 scenario, step 1: `add(Credit, 100)` from the initial state. -/
def c5s1 : CanisterState := (add_entry 1 (creditPayload 100) initState).2

/-- §8 scenario, step 2: `add(Debit, 30)`. -/
def c5s2 : CanisterState := (add_entry 2 (debitPayload 30) c5s1).2

/-- §8 scenario, step 3: `add(Debit, 1000)` (rejected). -/
def c5s3 : CanisterState := (add_entry 3 (debitPayload 1000) c5s2).2

/-- §8 scenario, step 4: update the Debit-30 entry to `Debit, 50`. -/
def c5s4 : CanisterState := (update_entry 4 1 (debitPayload 50) c5s3).2

/-- §8 scenario, step 5: delete the Credit-100 entry. -/
def c5s5 : CanisterState := (delete_entry 0 c5s4).2

/-! ### Association-list lemmas -/

theorem storeGet_storeInsert_self (l : EntryStore) (k : Nat) (e : PettyCashEntry) :
    storeGet (storeInsert l k e) k = some e := by
  induction l with
  | nil => simp [storeInsert, storeGet]
  | cons hd tl ih =>
    obtain ⟨k', e'⟩ := hd
    by_cases h1 : k < k'
    · simp [storeInsert, h1, storeGet]
    · by_cases h2 : k = k'
      · simp [storeInsert, h1, h2, storeGet]
      · simp [storeInsert, h1, h2, storeGet, ih]

theorem storeGet_storeInsert_ne (l : EntryStore) (k j : Nat) (e : PettyCashEntry)
    (h : j ≠ k) : storeGet (storeInsert l k e) j = storeGet l j := by
  induction l with
  | nil => simp [storeInsert, storeGet, h]
  | cons hd tl ih =>
    obtain ⟨k', e'⟩ := hd
    by_cases h1 : k < k'
    · simp [storeInsert, h1, storeGet, h]
    · by_cases h2 : k = k'
      · subst h2
        simp [storeInsert, h1, storeGet, h]
      · by_cases h3 : j = k'
        · simp [storeInsert, h1, h2, storeGet, h3]
        · simp [storeInsert, h1, h2, storeGet, h3, ih]

theorem storeRemove_of_storeGet_none (l : EntryStore) (k : Nat)
    (h : storeGet l k = none) : storeRemove l k = (none, l) := by
  induction l with
  | nil => simp [storeRemove]
  | cons hd tl ih =>
    obtain ⟨k', e'⟩ := hd
    by_cases h2 : k = k'
    · simp [storeGet, h2] at h
    · simp [storeGet, h2] at h
      simp [storeRemove, h2, ih h]

theorem storeRemove_fst_of_storeGet_some (l : EntryStore) (k : Nat) (e : PettyCashEntry)
    (h : storeGet l k = some e) : (storeRemove l k).1 = some e := by
  induction l with
  | nil => simp [storeGet] at h
  | cons hd tl ih =>
    obtain ⟨k', e'⟩ := hd
    by_cases h2 : k = k'
    · simp [storeGet, h2] at h
      simp [storeRemove, h2, h]
    · simp [storeGet, h2] at h
      simp [storeRemove, h2, ih h]

theorem storeGet_none_of_key_not_mem (l : EntryStore) (k : Nat)
    (h : k ∉ l.map Prod.fst) : storeGet l k = none := by
  induction l with
  | nil => simp [storeGet]
  | cons hd tl ih =>
    obtain ⟨k', e'⟩ := hd
    rw [List.map_cons, List.mem_cons, not_or] at h
    simp [storeGet, h.1, ih h.2]

theorem storeGet_storeRemove_self (l : EntryStore) (k : Nat)
    (h : (l.map Prod.fst).Nodup) : storeGet (storeRemove l k).2 k = none := by
  induction l with
  | nil => simp [storeRemove, storeGet]
  | cons hd tl ih =>
    obtain ⟨k', e'⟩ := hd
    rw [List.map_cons, List.nodup_cons] at h
    by_cases h2 : k = k'
    · subst h2
      simp [storeRemove]
      exact storeGet_none_of_key_not_mem tl _ h.1
    · simp [storeRemove, h2, storeGet, ih h.2]

theorem mem_storeInsert (l : EntryStore) (k : Nat) (e : PettyCashEntry)
    (q : Nat × PettyCashEntry) (h : q ∈ storeInsert l k e) : q ∈ l ∨ q = (k, e) := by
  induction l with
  | nil =>
    simp [storeInsert] at h
    exact Or.inr h
  | cons hd tl ih =>
    obtain ⟨k', e'⟩ := hd
    by_cases h1 : k < k'
    · simp [storeInsert, h1] at h
      rcases h with h | h | h
      · exact Or.inr h
      · exact Or.inl (by simp [h])
      · exact Or.inl (by simp [h])
    · by_cases h2 : k = k'
      · subst h2
        simp [storeInsert, h1] at h
        rcases h with h | h
        · exact Or.inr h
        · exact Or.inl (by simp [h])
      · simp [storeInsert, h1, h2] at h
        rcases h with h | h
        · exact Or.inl (by simp [h])
        · rcases ih h with h3 | h3
          · exact Or.inl (by simp [h3])
          · exact Or.inr h3

theorem storeSum_storeInsert_fresh (l : EntryStore) (k : Nat) (e : PettyCashEntry)
    (h : storeGet l k = none) :
    storeSum (storeInsert l k e) = storeSum l + signedAmount e := by
  induction l with
  | nil => simp [storeInsert, storeSum]
  | cons hd tl ih =>
    obtain ⟨k', e'⟩ := hd
    by_cases h2 : k = k'
    · simp [storeGet, h2] at h
    · simp [storeGet, h2] at h
      by_cases h1 : k < k'
      · simp [storeInsert, h1, storeSum]
        ring
      · simp [storeInsert, h1, h2, storeSum] at ih ⊢
        rw [ih h]
        ring

/-! ### Preservation of the balance/store invariant -/

theorem balanceInv_initState : balanceInv initState := by
  constructor
  · simp [initState, storeSum]
  · intro q hq
    simp [initState] at hq

theorem counter_fresh (s : CanisterState)
    (h : ∀ q ∈ s.petty_cash_storage, q.1 < s.id_counter) :
    storeGet s.petty_cash_storage s.id_counter = none := by
  apply storeGet_none_of_key_not_mem
  intro hmem
  rcases List.mem_map.mp hmem with ⟨q, hq, hq1⟩
  exact absurd (hq1 ▸ h q hq) (lt_irrefl s.id_counter)

theorem add_entry_preserves_balanceInv (now : Nat) (p : EntryPayload)
    (s : CanisterState) (h : balanceInv s) : balanceInv (add_entry now p s).2 := by
  unfold add_entry
  by_cases h1 : p.amount ≤ 0
  · simpa [h1] using h
  · by_cases h2 : p.entry_type = TransactionType.Debit ∧ s.balance < p.amount
    · simpa [h1, h2] using h
    · simp only [if_neg h1, if_neg h2]
      unfold balanceInv
      refine ⟨?_, ?_⟩
      · show s.balance + payloadDelta p = storeSum (do_insert _ s.petty_cash_storage)
        have hfresh := counter_fresh s h.2
        rw [do_insert]
        rw [storeSum_storeInsert_fresh _ _ _ hfresh, h.1]
        cases hp : p.entry_type <;> simp [signedAmount, payloadDelta, hp]
      · intro q hq
        rcases mem_storeInsert _ _ _ _ hq with hm | hm
        · exact Nat.lt_succ_of_lt (h.2 q hm)
        · rw [hm]
          exact Nat.lt_succ_self _

theorem runAdds_preserves_balanceInv (ops : List (Nat × EntryPayload))
    (s : CanisterState) (h : balanceInv s) : balanceInv (runAdds ops s) := by
  induction ops generalizing s with
  | nil => simpa [runAdds] using h
  | cons op rest ih =>
    rw [runAdds]
    exact ih _ (add_entry_preserves_balanceInv op.1 op.2 s h)

/-! ### Outcome lemmas for `add_entry` -/

theorem addResultId_none_of_not_ok (r : Except Error PettyCashEntry)
    (h : resIsOk r = false) : addResultId r = none := by
  cases r with
  | ok e => simp [resIsOk] at h
  | error err => simp [addResultId]

theorem add_entry_fail_frame (now : Nat) (p : EntryPayload) (s : CanisterState)
    (h : resIsOk (add_entry now p s).1 = false) : (add_entry now p s).2 = s := by
  unfold add_entry at h ⊢
  by_cases h1 : p.amount ≤ 0
  · simp [h1]
  · by_cases h2 : p.entry_type = TransactionType.Debit ∧ s.balance < p.amount
    · simp [h1, h2]
    · simp [h1, h2, resIsOk] at h

theorem add_entry_ok_id (now : Nat) (p : EntryPayload) (s : CanisterState)
    (h : resIsOk (add_entry now p s).1 = true) :
    addResultId (add_entry now p s).1 = some s.id_counter ∧
    (add_entry now p s).2.id_counter = s.id_counter + 1 := by
  unfold add_entry at h ⊢
  by_cases h1 : p.amount ≤ 0
  · simp [h1, resIsOk] at h
  · by_cases h2 : p.entry_type = TransactionType.Debit ∧ s.balance < p.amount
    · simp [h1, h2, resIsOk] at h
    · simp [h1, h2, addResultId]

theorem okIds_runAddsTrace (ops : List (Nat × EntryPayload)) (s : CanisterState) :
    okIds (runAddsTrace ops s) =
      List.range' s.id_counter (okIds (runAddsTrace ops s)).length := by
  induction ops generalizing s with
  | nil => simp [runAddsTrace, okIds]
  | cons op rest ih =>
    rw [runAddsTrace]
    cases hok : resIsOk (add_entry op.1 op.2 s).1 with
    | false =>
      have hs := add_entry_fail_frame op.1 op.2 s hok
      have hn := addResultId_none_of_not_ok _ hok
      simp only [okIds, List.filterMap_cons, hn, hs]
      exact ih s
    | true =>
      obtain ⟨hsome, hc⟩ := add_entry_ok_id op.1 op.2 s hok
      simp only [okIds, List.filterMap_cons, hsome]
      have htail := ih (add_entry op.1 op.2 s).2
      rw [okIds] at htail
      rw [htail, hc]
      simp [List.range'_succ]

theorem credit_ne_debit : TransactionType.Credit ≠ TransactionType.Debit := by decide

theorem debit_ne_credit : TransactionType.Debit ≠ TransactionType.Credit := by decide

/-! ### The claims -/

/-- C1: for every sequence of `add_entry` operations starting from the initial
state (balance 0, empty store), the balance returned by `get_current_balance`
equals the sum of the signed amounts of all currently-stored entries
(+amount for a Credit entry, -amount for a Debit entry). -/
theorem C1_balance_is_sum_of_signed_amounts (ops : List (Nat × EntryPayload)) :
    get_current_balance (runAdds ops initState) =
      storeSum (runAdds ops initState).petty_cash_storage :=
  (runAdds_preserves_balanceInv ops initState balanceInv_initState).1

/-- C1 witness: the invariant evaluated on a concrete two-call run. -/
theorem C1_witness :
    get_current_balance (runAdds [(1, creditPayload 100), (2, debitPayload 30)] initState) =
      storeSum (runAdds [(1, creditPayload 100), (2, debitPayload 30)]
          initState).petty_cash_storage :=
  C1_balance_is_sum_of_signed_amounts [(1, creditPayload 100), (2, debitPayload 30)]

/-- C2: with the entry `e` stored under `id`, `update_entry` computes the
candidate balance `current_balance + reverse_delta + new_delta` and fails with
`InsufficientFunds` exactly when it is `< 0`; on that failure the state is
returned unmodified (atomic rejection), and otherwise the call succeeds and
commits exactly the candidate balance. -/
theorem C2_update_insufficient_iff (now id : Nat) (p : EntryPayload) (s : CanisterState)
    (e : PettyCashEntry) (h : storeGet s.petty_cash_storage id = some e) :
    (s.balance + reverseDelta e + payloadDelta p < 0 →
      update_entry now id p s =
        (Except.error (Error.InsufficientFunds "Update would result in negative balance"), s)) ∧
    (0 ≤ s.balance + reverseDelta e + payloadDelta p →
      resIsOk (update_entry now id p s).1 = true ∧
      (update_entry now id p s).2.balance = s.balance + reverseDelta e + payloadDelta p) := by
  unfold update_entry
  rw [h]
  constructor
  · intro hneg
    simp only [if_pos hneg]
  · intro hpos
    simp only [if_neg (not_lt.mpr hpos)]
    refine ⟨?_, ?_⟩
    · simp [resIsOk]
    · trivial

/-- C2 witness: updating the stored Credit-100 entry to a Debit of 150 is
rejected atomically. -/
theorem C2_witness :
    update_entry 9 0 (debitPayload 150) sampleState =
      (Except.error (Error.InsufficientFunds "Update would result in negative balance"),
        sampleState) :=
  (C2_update_insufficient_iff 9 0 (debitPayload 150) sampleState sampleCreditEntry
      (by simp [sampleState, storeGet])).1
    (by norm_num [sampleState, sampleCreditEntry, reverseDelta, payloadDelta, debitPayload])

/-- C3: with an entry `e` stored under `id`, `delete_entry` always succeeds
(never `InsufficientFunds`), returns the pre-deletion entry, removes it from
the store, and reverses its effect: balance `B - A` for a stored Credit of
amount `A` (even when that is negative) and `B + A` for a stored Debit. -/
theorem C3_delete_reverses_unconditionally (id : Nat) (s : CanisterState)
    (e : PettyCashEntry) (h : storeGet s.petty_cash_storage id = some e)
    (hnd : (s.petty_cash_storage.map Prod.fst).Nodup) :
    (delete_entry id s).1 = Except.ok e ∧
    (delete_entry id s).2.balance = s.balance + reverseDelta e ∧
    (e.entry_type = TransactionType.Credit →
      (delete_entry id s).2.balance = s.balance - e.amount) ∧
    (e.entry_type = TransactionType.Debit →
      (delete_entry id s).2.balance = s.balance + e.amount) ∧
    storeGet (delete_entry id s).2.petty_cash_storage id = none := by
  have h1 := storeRemove_fst_of_storeGet_some _ _ _ h
  have h2 := storeGet_storeRemove_self s.petty_cash_storage id hnd
  unfold delete_entry
  simp only [h1]
  refine ⟨trivial, trivial, ?_, ?_, ?_⟩
  · intro hc
    show s.balance + reverseDelta e = s.balance - e.amount
    rw [reverseDelta, hc]
    ring
  · intro hd
    show s.balance + reverseDelta e = s.balance + e.amount
    rw [reverseDelta, hd]
  · exact h2

/-- C3 witness: deleting the stored Credit-100 entry from balance 100 yields
balance 0 and removes the entry. -/
theorem C3_witness :
    (delete_entry 0 sampleState).1 = Except.ok sampleCreditEntry ∧
    (delete_entry 0 sampleState).2.balance = (100 : ℚ) - 100 := by
  have hmain := C3_delete_reverses_unconditionally 0 sampleState sampleCreditEntry
    (by simp [sampleState, storeGet]) (by simp [sampleState])
  exact ⟨hmain.1, hmain.2.2.1 rfl⟩

/-- C4: for a Debit payload with positive amount, `add_entry` fails with
`InsufficientFunds` exactly when `current_balance < amount`, leaving the
state unchanged on failure; when `current_balance ≥ amount` (equality
included) the debit is accepted. -/
theorem C4_add_debit_funds_guard (now : Nat) (p : EntryPayload) (s : CanisterState)
    (hT : p.entry_type = TransactionType.Debit) (hA : 0 < p.amount) :
    (s.balance < p.amount →
      errIsInsufficientFunds (add_entry now p s).1 = true ∧ (add_entry now p s).2 = s) ∧
    (p.amount ≤ s.balance → resIsOk (add_entry now p s).1 = true) := by
  have h1 : ¬ p.amount ≤ 0 := not_le.mpr hA
  unfold add_entry
  constructor
  · intro hlt
    simp [h1, hT, hlt, errIsInsufficientFunds]
  · intro hge
    have h2 : ¬ (p.entry_type = TransactionType.Debit ∧ s.balance < p.amount) :=
      fun hc => absurd hc.2 (not_lt.mpr hge)
    simp [h1, h2, resIsOk]

/-- C4 witness: a Debit of 50 from the empty initial state (balance 0) is
rejected with `InsufficientFunds` and leaves the state unchanged. -/
theorem C4_witness :
    errIsInsufficientFunds (add_entry 7 (debitPayload 50) initState).1 = true ∧
    (add_entry 7 (debitPayload 50) initState).2 = initState :=
  (C4_add_debit_funds_guard 7 (debitPayload 50) initState rfl (by norm_num [debitPayload])).1
    (by norm_num [debitPayload, initState])

/-- C5 counterexample: the claim says the first successful `add_entry` returns
an entry with id 1, but from the initial state `add(Credit, 100)` returns the
entry with id 0 (the counter cell's `set` returns the value it replaces, and
the counter starts at 0). -/
theorem C5_counterexample :
    addResultId (add_entry 1 (creditPayload 100) initState).1 = some 0 ∧
    addResultId (add_entry 1 (creditPayload 100) initState).1 ≠ some 1 := by
  constructor
  · norm_num [add_entry, creditPayload, initState, payloadDelta, do_insert, storeInsert,
      addResultId, credit_ne_debit]
  · norm_num [add_entry, creditPayload, initState, payloadDelta, do_insert, storeInsert,
      addResultId, credit_ne_debit]

/-- C5 amended: from the initial state, `add(Credit, 100)` succeeds with
balance 100 and id 0; `add(Debit, 30)` succeeds with balance 70 and id 1;
`add(Debit, 1000)` fails with `InsufficientFunds` and the balance stays 70;
updating id 1 to `Debit, 50` succeeds with balance 50; deleting id 0
succeeds with balance -50. -/
theorem C5_amended_scenario :
    addResultId (add_entry 1 (creditPayload 100) initState).1 = some 0 ∧
    get_current_balance c5s1 = 100 ∧
    addResultId (add_entry 2 (debitPayload 30) c5s1).1 = some 1 ∧
    get_current_balance c5s2 = 70 ∧
    errIsInsufficientFunds (add_entry 3 (debitPayload 1000) c5s2).1 = true ∧
    get_current_balance c5s3 = 70 ∧
    resIsOk (update_entry 4 1 (debitPayload 50) c5s3).1 = true ∧
    get_current_balance c5s4 = 50 ∧
    resIsOk (delete_entry 0 c5s4).1 = true ∧
    get_current_balance c5s5 = -50 := by
  refine ⟨?_, ?_, ?_, ?_, ?_, ?_, ?_, ?_, ?_, ?_⟩ <;>
    norm_num [get_current_balance, c5s5, c5s4, c5s3, c5s2, c5s1, add_entry, update_entry,
      delete_entry, creditPayload, debitPayload, initState, payloadDelta, reverseDelta,
      do_insert, storeInsert, storeGet, storeRemove, addResultId, resIsOk,
      errIsInsufficientFunds, credit_ne_debit, debit_ne_credit]

/-- C6: with an entry stored under `id`, `update_entry` never fails with
`InvalidAmount`: whatever the payload amount (non-positive included), the call
succeeds whenever the candidate balance is non-negative, and the only
validation beyond `NotFound` is the balance-non-negative check. -/
theorem C6_update_skips_amount_validation (now id : Nat) (p : EntryPayload)
    (s : CanisterState) (e : PettyCashEntry)
    (h : storeGet s.petty_cash_storage id = some e) :
    errIsInvalidAmount (update_entry now id p s).1 = false ∧
    (0 ≤ s.balance + reverseDelta e + payloadDelta p →
      resIsOk (update_entry now id p s).1 = true) ∧
    (s.balance + reverseDelta e + payloadDelta p < 0 →
      errIsInsufficientFunds (update_entry now id p s).1 = true) := by
  unfold update_entry
  rw [h]
  by_cases hneg : s.balance + reverseDelta e + payloadDelta p < 0
  · simp only [if_pos hneg]
    refine ⟨rfl, ?_, ?_⟩
    · intro hpos
      exact absurd hneg (not_lt.mpr hpos)
    · intro _
      rfl
  · simp only [if_neg hneg]
    refine ⟨rfl, ?_, ?_⟩
    · intro _
      rfl
    · intro hc
      exact absurd hc hneg

/-- C6 witness: updating the stored Credit-100 entry to a Credit with the
non-positive amount -5 succeeds when the balance cushion keeps the candidate
non-negative (no `InvalidAmount` rejection). -/
theorem C6_witness :
    errIsInvalidAmount (update_entry 9 0 (creditPayload (-5)) sampleRichState).1 = false ∧
    resIsOk (update_entry 9 0 (creditPayload (-5)) sampleRichState).1 = true := by
  have hmain := C6_update_skips_amount_validation 9 0 (creditPayload (-5)) sampleRichState
    sampleCreditEntry (by simp [sampleRichState, storeGet])
  refine ⟨hmain.1, hmain.2.1 ?_⟩
  norm_num [sampleRichState, sampleCreditEntry, reverseDelta, payloadDelta, creditPayload]

/-- C7: when no entry is stored under `id`, both `update_entry` and
`delete_entry` fail with `NotFound` and leave the balance and the store
unchanged. -/
theorem C7_not_found_leaves_state (now id : Nat) (p : EntryPayload) (s : CanisterState)
    (h : storeGet s.petty_cash_storage id = none) :
    update_entry now id p s =
      (Except.error (Error.NotFound ("Entry with id=" ++ toString id ++ " not found")), s) ∧
    delete_entry id s =
      (Except.error (Error.NotFound ("Entry with id=" ++ toString id ++ " not found")), s) := by
  have hrem := storeRemove_of_storeGet_none _ _ h
  constructor
  · unfold update_entry
    rw [h]
  · unfold delete_entry
    simp only [hrem]

/-- C7 witness: id 5 is absent from the initial state; update and delete both
return `NotFound` and the state is untouched. -/
theorem C7_witness :
    update_entry 3 5 (creditPayload 10) initState =
      (Except.error (Error.NotFound ("Entry with id=" ++ toString 5 ++ " not found")),
        initState) ∧
    delete_entry 5 initState =
      (Except.error (Error.NotFound ("Entry with id=" ++ toString 5 ++ " not found")),
        initState) :=
  C7_not_found_leaves_state 3 5 (creditPayload 10) initState rfl

/-- C8: `get_entries_by_date_range(start, end)` returns exactly the stored
entries whose date `d` satisfies `start ≤ d ≤ end` (both bounds inclusive);
it has no error case, and when `start > end` it returns the empty sequence. -/
theorem C8_date_range_inclusive (start_date end_date : Nat) (s : CanisterState)
    (e : PettyCashEntry) :
    (e ∈ get_entries_by_date_range start_date end_date s ↔
      ((∃ k, (k, e) ∈ s.petty_cash_storage) ∧
        start_date ≤ e.date ∧ e.date ≤ end_date)) ∧
    (end_date < start_date → get_entries_by_date_range start_date end_date s = []) := by
  constructor
  · constructor
    · intro hmem
      rw [get_entries_by_date_range] at hmem
      rcases List.mem_map.mp hmem with ⟨q, hq, rfl⟩
      rcases List.mem_filter.mp hq with ⟨hql, hcond⟩
      simp only [Bool.and_eq_true, decide_eq_true_eq] at hcond
      exact ⟨⟨q.1, hql⟩, hcond.1, hcond.2⟩
    · rintro ⟨⟨k, hk⟩, h1, h2⟩
      rw [get_entries_by_date_range]
      refine List.mem_map.mpr ⟨(k, e), List.mem_filter.mpr ⟨hk, ?_⟩, rfl⟩
      simp [h1, h2]
  · intro hlt
    rw [get_entries_by_date_range]
    have hnil : s.petty_cash_storage.filter
        (fun q => decide (start_date ≤ q.2.date) && decide (q.2.date ≤ end_date)) = [] := by
      rw [List.filter_eq_nil_iff]
      intro q _
      simp only [Bool.and_eq_true, decide_eq_true_eq, not_and]
      intro hs he
      exact absurd (le_trans hs he) (not_le.mpr hlt)
    rw [hnil, List.map_nil]

/-- C8 witness: with start 30 > end 20 the query on a populated store returns
the empty list. -/
theorem C8_witness :
    get_entries_by_date_range 30 20 sampleState = [] :=
  (C8_date_range_inclusive 30 20 sampleState sampleCreditEntry).2 (by norm_num)

/-- C9: on a successful `update_entry`, the stored entry keeps its `id` and
`created_at` (and `date`), takes description, amount, entry_type, category,
receipt_url and approved_by from the payload, gets `updated_at = Some now`,
and every other stored entry is unchanged. -/
theorem C9_update_overwrites_and_frames (now id : Nat) (p : EntryPayload)
    (s : CanisterState) (e : PettyCashEntry)
    (h : storeGet s.petty_cash_storage id = some e) (hid : e.id = id)
    (hb : 0 ≤ s.balance + reverseDelta e + payloadDelta p) :
    (update_entry now id p s).1 = Except.ok
      { e with description := p.description, amount := p.amount,
               entry_type := p.entry_type, category := p.category,
               receipt_url := p.receipt_url, approved_by := p.approved_by,
               updated_at := some now } ∧
    storeGet (update_entry now id p s).2.petty_cash_storage id = some
      { e with description := p.description, amount := p.amount,
               entry_type := p.entry_type, category := p.category,
               receipt_url := p.receipt_url, approved_by := p.approved_by,
               updated_at := some now } ∧
    ∀ k, k ≠ id → storeGet (update_entry now id p s).2.petty_cash_storage k =
      storeGet s.petty_cash_storage k := by
  have hkey : ({ e with description := p.description, amount := p.amount, entry_type := p.entry_type, category := p.category, receipt_url := p.receipt_url, approved_by := p.approved_by, updated_at := some now } : PettyCashEntry).id = id := hid
  unfold update_entry
  rw [h]
  simp only [if_neg (not_lt.mpr hb)]
  refine ⟨trivial, ?_, ?_⟩
  · show storeGet (do_insert _ s.petty_cash_storage) id = _
    simp only [do_insert]
    rw [hkey]
    exact storeGet_storeInsert_self _ _ _
  · intro k hk
    show storeGet (do_insert _ s.petty_cash_storage) k = _
    simp only [do_insert]
    apply storeGet_storeInsert_ne
    rw [hkey]
    exact hk

/-- C9 witness: updating the stored entry 0 to a Credit of 200 overwrites the
payload fields, keeps id and created_at, and leaves the (absent) key 7
unchanged. -/
theorem C9_witness :
    (update_entry 9 0 (creditPayload 200) sampleState).1 = Except.ok
      { sampleCreditEntry with amount := 200, updated_at := some 9 } ∧
    storeGet (update_entry 9 0 (creditPayload 200) sampleState).2.petty_cash_storage 7 =
      storeGet sampleState.petty_cash_storage 7 := by
  have hmain := C9_update_overwrites_and_frames 9 0 (creditPayload 200) sampleState
    sampleCreditEntry (by simp [sampleState, storeGet]) rfl
    (by norm_num [sampleState, sampleCreditEntry, reverseDelta, payloadDelta, creditPayload])
  exact ⟨hmain.1, hmain.2.2 7 (by decide)⟩

/-- C10: the id counter starts at 0; a successful `add_entry` returns the
pre-increment counter value as the new id and bumps the counter by one; a
failed `add_entry` leaves the state (counter included) unchanged; hence over
any run of adds from the initial state the assigned ids are exactly the
consecutive values 0, 1, 2, .... -/
theorem C10_consecutive_id_allocation (ops : List (Nat × EntryPayload)) (now : Nat)
    (p : EntryPayload) (s : CanisterState) :
    initState.id_counter = 0 ∧
    (resIsOk (add_entry now p s).1 = true →
      addResultId (add_entry now p s).1 = some s.id_counter ∧
      (add_entry now p s).2.id_counter = s.id_counter + 1) ∧
    (resIsOk (add_entry now p s).1 = false → (add_entry now p s).2 = s) ∧
    okIds (runAddsTrace ops initState) =
      List.range (okIds (runAddsTrace ops initState)).length := by
  refine ⟨rfl, add_entry_ok_id now p s, add_entry_fail_frame now p s, ?_⟩
  rw [List.range_eq_range']
  exact okIds_runAddsTrace ops initState

/-- C10 witness: the first add from the initial state is assigned id 0 and
bumps the counter to 1. -/
theorem C10_witness :
    addResultId (add_entry 1 (creditPayload 100) initState).1 = some initState.id_counter ∧
    (add_entry 1 (creditPayload 100) initState).2.id_counter = initState.id_counter + 1 :=
  (C10_consecutive_id_allocation [] 1 (creditPayload 100) initState).2.1
    (by norm_num [add_entry, creditPayload, initState, payloadDelta, resIsOk,
      do_insert, storeInsert, credit_ne_debit])

end PettyCash
